import Mathlib

/-!
# Verification of the botMaster agent runtime and streaming provider

Shallow embedding of the core of the botMaster repository:

* `src/botmaster/storage.py` — the sqlite-backed history store
  (`Storage.get_messages`, `Storage.add_message`);
* `src/botmaster/agent_runtime.py` — `AgentWorker.run`, `AgentWorker.submit`,
  `AgentManager.spawn`;
* `src/botmaster/llm_providers.py` and
  `src/_archive-2025-10-25/botmaster/llm_providers.py` — the two versions of
  `ClaudeCLIStreamProvider` and the `make_provider` factory.

Conventions of the embedding:

* a stored conversation is a `List Message` in `id ASC` order (list position =
  autoincrement id order);
* the bound provider's `generate` is an oracle
  `GenOracle : Nat → String → List Message → Option String → Except String String`
  (call index, system prompt, context messages, model); a Python exception is
  `.error e` with `e` the exception's string form;
* wall-clock instants are naturals counted in milliseconds from the moment a
  `generate` call writes its user line; an event queue is a time-ordered list
  of `(arrival time, payload)` pairs delivered FIFO;
* parsed JSON values are `JVal`; a line that fails `json.loads` is `none`.
-/

namespace BotMaster

/-- A stored message row (`storage.Message` restricted to the fields the
runtime reads: `role` and `content`; list position stands for the `id`
ordering, `created_at` is never read by the runtime). The same shape serves
for the `{"role": ..., "content": ...}` context dicts the worker builds. -/
structure Message where
  role : String
  content : String
deriving Repr, DecidableEq

/-- Embeds `Storage.get_messages`: `SELECT * FROM messages WHERE session_id=?
ORDER BY id ASC`, with `LIMIT ?` appended only when `limit` is truthy
(Python `if limit:` — both `None` and `0` leave the query unlimited).
With a truthy limit `n` this returns the FIRST `n` rows in id order. -/
def getMessages (store : List Message) (limit : Option Nat) : List Message :=
  match limit with
  | none => store
  | some n => if n = 0 then store else store.take n

/-- The `max_context_messages` most recent turns in order, as §4.1 of the
spec words it ("the last N turns — most-recent-first truncation, oldest
turns outside the window are dropped"). Comparator for `getMessages`;
written from the spec's words, not from the source. -/
def specRecentWindow (store : List Message) (n : Nat) : List Message :=
  store.drop (store.length - n)

/-- Settings fields `AgentWorker.run` reads (`config.Settings`). -/
structure WorkerSettings where
  systemPrompt : String
  maxContextMessages : Nat
deriving Repr, DecidableEq

/-- The `AgentSpec` fields `AgentWorker.run` reads. -/
structure AgentSpecM where
  name : String
  projectPath : Option String
  model : Option String
deriving Repr, DecidableEq

/-- The provider bound to a worker, as an oracle: arguments are the call
index (how many `generate` calls this worker issued before), the system
prompt, the context messages and the model; `.error e` models
`provider.generate` raising an exception whose string form is `e`. -/
def GenOracle : Type :=
  Nat → String → List Message → Option String → Except String String

/-- The inline error text `AgentWorker.run` stores when `generate` raises:
`f"[Fehler bei LLM-Abfrage: {e}]"` (agent_runtime.py line 61). -/
def errorReply (e : String) : String :=
  "[Fehler bei LLM-Abfrage: " ++ e ++ "]"

/-- The initial announce `AgentWorker.run` appends before its loop:
`f"Agent {name} gestartet. Projekt: {project_path or '-'}"`. -/
def announceText (spec : AgentSpecM) : String :=
  "Agent " ++ spec.name ++ " gestartet. Projekt: " ++ (spec.projectPath.getD "-")

/-- The context built in `AgentWorker.run` lines 52-56: fetch
`get_messages(session, limit=max_context_messages)` and keep only the
`user`/`assistant` rows. -/
def buildContext (st : WorkerSettings) (store : List Message) : List Message :=
  (getMessages store (some st.maxContextMessages)).filter
    (fun m => m.role == "user" || m.role == "assistant")

/-- One iteration of the `AgentWorker.run` loop body on a dequeued user
text: append the `user` row, build the context, call `generate` (catching
any exception into `errorReply`), append the `assistant` row. -/
def processItem (st : WorkerSettings) (spec : AgentSpecM) (gen : GenOracle)
    (k : Nat) (store : List Message) (userText : String) : List Message :=
  let store1 := store ++ [⟨"user", userText⟩]
  let reply :=
    match gen k st.systemPrompt (buildContext st store1) spec.model with
    | .ok r => r
    | .error e => errorReply e
  store1 ++ [⟨"assistant", reply⟩]

/-- The worker loop draining the mailbox: items are processed strictly in
list order, each fully (user row, generate, assistant row) before the next
is dequeued. -/
def runItems (st : WorkerSettings) (spec : AgentSpecM) (gen : GenOracle)
    (k : Nat) (store : List Message) : List String → List Message
  | [] => store
  | item :: rest =>
      runItems st spec gen (k + 1) (processItem st spec gen k store item) rest

/-- `AgentWorker.run` on the sequence of user texts accepted into the
mailbox, starting from the initial announce row. -/
def runWorker (st : WorkerSettings) (spec : AgentSpecM) (gen : GenOracle)
    (items : List String) : List Message :=
  runItems st spec gen 0 [⟨"system", announceText spec⟩] items

/-- Scanner for the pairing discipline: every `user` row is immediately
followed by exactly one `assistant` row, and `assistant` rows occur only in
that position. The Boolean state is "the previous row was a `user` row whose
`assistant` reply is still owed". -/
def altOk : Bool → List Message → Bool
  | false, [] => true
  | true, [] => false
  | false, m :: rest =>
      if m.role == "user" then altOk true rest
      else if m.role == "assistant" then false
      else altOk false rest
  | true, m :: rest => (m.role == "assistant") && altOk false rest

/-- The user-role contents of a store, in order. -/
def userContents (store : List Message) : List String :=
  (store.filter (fun m => m.role == "user")).map (fun m => m.content)

/-! ## Parsed JSON values and Python-style truthiness -/

/-- A parsed JSON value, as produced by `json.loads` on one protocol line.
Objects keep field order; lookup takes the first binding, matching Python
dicts whose keys are unique. -/
inductive JVal where
  | jnull : JVal
  | jbool : Bool → JVal
  | jnum : Int → JVal
  | jstr : String → JVal
  | jlist : List JVal → JVal
  | jobj : List (String × JVal) → JVal

/-- Python truthiness (`if not content:` etc.) on a parsed JSON value:
`None`, `False`, `0`, `""`, `[]` and `{}` are falsy. -/
def pyTruthy : JVal → Bool
  | .jnull => false
  | .jbool b => b
  | .jnum n => n != 0
  | .jstr s => !(s == "")
  | .jlist xs => !xs.isEmpty
  | .jobj fs => !fs.isEmpty

/-- `d.get(key)` on an object: `None` (here `jnull`) when absent or when the
value is not an object. -/
def pyGet (v : JVal) : String → JVal
  | key =>
    match v with
    | .jobj fs => (fs.lookup key).getD .jnull
    | _ => .jnull

/-- `d.get(key, default)` with an explicit default. -/
def pyGetD (v : JVal) (key : String) (dflt : JVal) : JVal :=
  match v with
  | .jobj fs => (fs.lookup key).getD dflt
  | _ => dflt

/-- Python `a or b`: `a` when truthy, else `b`. -/
def pyOr (a b : JVal) : JVal :=
  if pyTruthy a then a else b

/-- `block.get("type") == "text"` on a dict: true only when the field holds
exactly the string `"text"`. -/
def isTextType (fields : List (String × JVal)) : Bool :=
  match fields.lookup "type" with
  | some (.jstr s) => s == "text"
  | _ => false

/-- `block.get("text", "")` read as a string. The streaming protocol's text
blocks carry a string here; a non-string value would make Python's
`"".join` raise downstream, a case outside the wire protocol, embedded as
`""`. -/
def textField (fields : List (String × JVal)) : String :=
  match fields.lookup "text" with
  | some (.jstr s) => s
  | _ => ""

/-- Python `str(value)` on a parsed JSON value, the fall-through of
`_content_to_text` for content that is truthy but neither `str`, `list`,
nor a `type:"text"` dict. No claim exercises this rendering. -/
def pyStr : JVal → String
  | .jnull => "None"
  | .jbool true => "True"
  | .jbool false => "False"
  | .jnum n => toString n
  | .jstr s => s
  | .jlist xs =>
      "[" ++ String.intercalate ", " (xs.attach.map (fun x => pyStr x.1)) ++ "]"
  | .jobj fs =>
      "\x7b" ++
        String.intercalate ", "
          (fs.attach.map (fun f => "\x27" ++ f.1.1 ++ "\x27: " ++ pyStr f.1.2)) ++
        "\x7d"
decreasing_by
  · have h := List.sizeOf_lt_of_mem x.2
    simp only [JVal.jlist.sizeOf_spec]
    omega
  · have h := List.sizeOf_lt_of_mem f.2
    have h2 : sizeOf f.1.2 < sizeOf f.1 := by
      obtain ⟨a, b⟩ := f.1
      simp only [Prod.mk.sizeOf_spec]
      omega
    simp only [JVal.jobj.sizeOf_spec]
    omega

/-- The text extracted from one list element in the list branch of
`_content_to_text`: plain strings are taken as-is, dicts are taken when
`type == "text"`, everything else is skipped. -/
def blockText : JVal → Option String
  | .jstr s => some s
  | .jobj fs => if isTextType fs then some (textField fs) else none
  | _ => none

/-- Embeds `ClaudeCLIStreamProvider._content_to_text`
(src/_archive-2025-10-25/botmaster/llm_providers.py lines 282-298): falsy
content yields `""`; a plain string is returned as-is; a list concatenates
the texts of its string/text-block elements in order; a single
`type:"text"` dict yields its `text` field; anything else falls through to
`str(content)`. -/
def contentToText (content : JVal) : String :=
  if !pyTruthy content then ""
  else
    match content with
    | .jstr s => s
    | .jlist blocks => String.join (blocks.filterMap blockText)
    | .jobj fields =>
        if isTextType fields then textField fields else pyStr (.jobj fields)
    | other => pyStr other

/-- A structured single text block `{"type": "text", "text": t}`. -/
def textBlock (t : String) : JVal :=
  .jobj [("type", .jstr "text"), ("text", .jstr t)]

/-! ## Archive streaming provider
(`src/_archive-2025-10-25/botmaster/llm_providers.py`,
`ClaudeCLIStreamProvider.generate` lines 300-363). Chunk strings put on
`self._queue` by the reader thread are modelled abstractly; arrival times
are milliseconds after this call's stdin write. -/

/-- The provider-instance state a `generate` call reads
(`ClaudeCLIStreamProvider.__init__`): the entries sitting in `self._queue`
when the call starts, `self._last_error` and `self._proc.poll()` as
observed at the final sentinel checks, the first-message flag, the standing
instructions and the session id. `responseTimeoutMs` is `response_timeout`
(default 120.0 s) in milliseconds. -/
structure StreamState where
  queue : List String
  lastError : Option String
  exitCode : Option Int
  firstMessageSent : Bool
  instructions : Option String
  sessionId : String
  responseTimeoutMs : Nat
deriving Repr, DecidableEq

/-- The drain loop `while not self._queue.empty(): self._queue.get_nowait()`
run before the user line is written (archive lines 324-329): every entry is
removed and discarded. -/
def flushQueue : List String → List String
  | [] => []
  | _ :: rest => flushQueue rest

/-- The inner gather loop (archive lines 348-354): after the first chunk,
keep taking chunks while the gather deadline (`+0.5 s`) has not passed and
the next chunk arrives within the `0.1 s` `get` timeout; `now` tracks when
the last `get` returned. -/
def gatherChunks (now gatherDeadline : Nat) : List (Nat × String) → List String
  | [] => []
  | (t, c) :: rest =>
      if now < gatherDeadline then
        if t ≤ now + 100 then c :: gatherChunks (max now t) gatherDeadline rest
        else []
      else []

/-- The outer wait loop (archive lines 336-355): poll the queue until the
overall deadline; the first chunk that arrives before the deadline is taken
(at its arrival time), then additional chunks are gathered for a `0.5 s`
grace window, then the loop breaks. No arrival before the deadline means no
chunk at all. -/
def collectChunks (responseTimeoutMs : Nat) :
    List (Nat × String) → List String
  | [] => []
  | (t0, c0) :: rest =>
      if t0 < responseTimeoutMs then c0 :: gatherChunks t0 (t0 + 500) rest
      else []

/-- The result assembly of the archive `generate` (lines 323-363): the
queue is flushed, the user line written, chunks collected; then
`"".join(parts)` if any chunk was collected, else the stderr diagnostic if
one was captured, else the process-exited sentinel if the child has exited,
else the timeout sentinel. Entries still in the queue at call entry would
be available immediately (time 0) had they not been drained. -/
def archiveGenerate (st : StreamState) (arrivals : List (Nat × String)) :
    String :=
  let afterDrain := flushQueue st.queue
  let parts :=
    collectChunks st.responseTimeoutMs
      (afterDrain.map (fun c => (0, c)) ++ arrivals)
  if !parts.isEmpty then String.join parts
  else
    match st.lastError with
    | some e => "[claude-cli stderr] " ++ e
    | none =>
        match st.exitCode with
        | some code => "[claude-cli exited " ++ toString code ++ "]"
        | none => "[claude-cli timeout]"

/-! ## Current streaming provider
(`src/botmaster/llm_providers.py`, `ClaudeCLIStreamProvider.generate`
lines 209-263). This version has no reader thread and no internal queue:
`generate` itself reads stdout lines. A line is `(t, mv)` where `t` is the
millisecond at which `readline` returns it and `mv` is its parse
(`none` = `json.loads` failed). Lines already buffered in the pipe from
before the write are available at time `0`. -/

/-- `msg.get("type") or msg.get("message", {}).get("role")`
(current version line 251). -/
def typOf (msg : JVal) : JVal :=
  pyOr (pyGet msg "type") (pyGet (pyGetD msg "message" (.jobj [])) "role")

/-- `msg.get("message", {}).get("content") or msg.get("content") or ""`
(current version line 253). -/
def currentContent (msg : JVal) : JVal :=
  pyOr (pyGet (pyGetD msg "message" (.jobj [])) "content")
    (pyOr (pyGet msg "content") (.jstr ""))

/-- Text parts appended for one assistant line by the current `generate`
(lines 254-259): list content keeps only `type:"text"` dict blocks; string
content is appended whole; any other shape contributes nothing. -/
def currentExtract (msg : JVal) : List String :=
  match currentContent msg with
  | .jlist blocks =>
      blocks.filterMap (fun b =>
        match b with
        | .jobj fs => if isTextType fs then some (textField fs) else none
        | _ => none)
  | .jstr s => [s]
  | _ => []

/-- The read loop of the current `generate` (lines 236-262): timeout 90 s
checked before each read; malformed and non-assistant lines are skipped;
an assistant line appends its parts and breaks the loop once more than
2.0 s have elapsed since the write. An exhausted stream idles until the
deadline and returns what was collected. -/
def currentLoop (parts : List String) :
    List (Nat × Option JVal) → List String
  | [] => parts
  | (t, mv) :: rest =>
      if 90000 ≤ t then parts
      else
        match mv with
        | none => currentLoop parts rest
        | some msg =>
            match typOf msg with
            | .jstr ty =>
                if ty == "assistant" then
                  let parts2 := parts ++ currentExtract msg
                  if 2000 < t then parts2 else currentLoop parts2 rest
                else currentLoop parts rest
            | _ => currentLoop parts rest

/-- The current `generate`'s reply: lines still unread in the stdout pipe
from before this call's write (`pending`, available at time 0) are read
first, then lines the child emits after the write; the reply is
`"".join(text_parts) or ""` (line 263). -/
def currentGenerate (pending : List (Option JVal))
    (arrivals : List (Nat × Option JVal)) : String :=
  String.join (currentLoop [] (pending.map (fun v => ((0 : Nat), v)) ++ arrivals))

/-! ## Outbound user line (both streaming provider versions build it
identically: archive lines 305-321, current lines 214-231). -/

/-- The scan `for m in reversed(messages): if m.get("role") == "user":
user_content = m.get("content", ""); break`, here over the already-reversed
list. -/
def firstUserContent : List Message → String
  | [] => ""
  | m :: rest => if m.role == "user" then m.content else firstUserContent rest

/-- The content of the most recent `role == "user"` entry, `""` if none. -/
def lastUserContent (messages : List Message) : String :=
  firstUserContent messages.reverse

/-- Truthiness of `self.instructions` (`if self.instructions and ...`). -/
def instrTruthy : Option String → Bool
  | none => false
  | some s => !(s == "")

/-- The content sent and the new `_first_message_sent` flag: on the first
call with truthy instructions configured they are prepended once
(`f"{ins}\n\n---\n\nUser message:\n{user_content}"`) and the flag is set. -/
def buildSendContent (instructions : Option String) (firstSent : Bool)
    (messages : List Message) : String × Bool :=
  let uc := lastUserContent messages
  if instrTruthy instructions && !firstSent then
    ((instructions.getD "") ++ "\n\n---\n\nUser message:\n" ++ uc, true)
  else (uc, firstSent)

/-- The JSON object written as one line to the child's stdin:
`{"type":"user","message":{"role":"user","content":...},"session_id":...}`. -/
structure OutboundLine where
  typ : String
  role : String
  content : String
  sessionId : String
deriving Repr, DecidableEq

/-- The write path of `generate` in both streaming versions: the outbound
line and the updated first-message flag, as a function of everything the
call receives. `systemPrompt`, `model` and `temperature` are accepted (as
in the Python signature) and never read by the write path. -/
def outboundFor (instructions : Option String) (firstSent : Bool)
    (sessionId : String) (systemPrompt : String) (messages : List Message)
    (model : Option String) (temperature : Int) : OutboundLine × Bool :=
  let (content, fs2) := buildSendContent instructions firstSent messages
  ({ typ := "user", role := "user", content := content,
     sessionId := sessionId }, fs2)

/-! ## Agent manager (`src/botmaster/agent_runtime.py` lines 65-97). -/

/-- One registered worker: the agent id `storage.create_agent` returned,
the agent name, and the identity of the provider object the worker was
constructed with (object identities are tags). -/
structure WorkerRec where
  agentId : Nat
  name : String
  providerRef : Nat
deriving Repr, DecidableEq

/-- `AgentManager` state: the single provider object the manager was
constructed with (`self.provider`), the storage autoincrement counter for
`create_agent`, and the registry. -/
structure ManagerState where
  providerRef : Nat
  nextId : Nat
  workers : List WorkerRec
deriving Repr, DecidableEq

/-- `AgentManager.spawn` (lines 72-79): allocate an agent id, build the
worker `AgentWorker(spec, settings, storage, self.provider)` — the
manager's own provider object, no new instance — and register it. -/
def spawnAgent (m : ManagerState) (name : String) : ManagerState × Nat :=
  let agentId := m.nextId
  ({ providerRef := m.providerRef, nextId := m.nextId + 1,
     workers := m.workers ++ [⟨agentId, name, m.providerRef⟩] }, agentId)

/-- A sequence of `spawn` calls. -/
def spawnAll (m : ManagerState) : List String → ManagerState
  | [] => m
  | n :: rest => spawnAll (spawnAgent m n).1 rest

/-- A fresh manager holding one provider object and an empty registry. -/
def freshManager (providerRef : Nat) : ManagerState :=
  { providerRef := providerRef, nextId := 1, workers := [] }

/-! ## Provider factory (`make_provider`, src/botmaster/llm_providers.py
lines 266-287; the archive copy is identical). -/

/-- The provider object `make_provider` returns, by constructor. -/
inductive Provider where
  | anthropic (key : String) (defaultModel : Option String)
  | openai (key : String) (defaultModel : Option String)
  | gemini (key : String) (defaultModel : Option String)
  | command (cmd : String) (timeoutSec : Nat)
  | claudeCLI (bin : String) (mcpConfigPath cwd instructions : Option String)
deriving Repr, DecidableEq

/-- Python `if not x:` on an optional string: `None` and `""` are falsy. -/
def optStrFalsy : Option String → Bool
  | none => true
  | some s => s == ""

/-- Python `x or default` on an optional string. -/
def orDefault (o : Option String) (d : String) : String :=
  match o with
  | none => d
  | some s => if s == "" then d else s

/-- ASCII lowercase of one character (`str.lower` restricted to the ASCII
provider names the factory compares against). -/
def pyLowerChar (c : Char) : Char :=
  if 'A' ≤ c && c ≤ 'Z' then Char.ofNat (c.toNat + 32) else c

/-- `name.strip().lower()`: drop leading and trailing whitespace, then
lowercase. -/
def pyStripLower (s : String) : String :=
  ⟨(((s.data.dropWhile Char.isWhitespace).reverse.dropWhile
      Char.isWhitespace).reverse).map pyLowerChar⟩

/-- Embeds `make_provider`: normalize the name with `.strip().lower()`,
then dispatch; a missing (falsy) required credential or command raises
`ValueError` (`.error`); the `claude-cli`/`claude-flow` branch checks
nothing and defaults the binary to `"claude"`; unknown names raise. -/
def makeProvider (name : String)
    (anthropicKey openaiKey geminiKey defaultModel providerCmd : Option String)
    (providerTimeoutSec : Nat)
    (claudeCliBin mcpConfigPath cwd instructions : Option String) :
    Except String Provider :=
  let key := pyStripLower name
  if key == "anthropic" || key == "claude" then
    if optStrFalsy anthropicKey then .error "ANTHROPIC_API_KEY fehlt."
    else .ok (.anthropic (anthropicKey.getD "") defaultModel)
  else if key == "openai" || key == "oai" then
    if optStrFalsy openaiKey then .error "OPENAI_API_KEY fehlt."
    else .ok (.openai (openaiKey.getD "") defaultModel)
  else if key == "gemini" || key == "google" then
    if optStrFalsy geminiKey then .error "GEMINI_API_KEY fehlt."
    else .ok (.gemini (geminiKey.getD "") defaultModel)
  else if key == "cmd" || key == "local" || key == "claude-code"
      || key == "cursor" then
    if optStrFalsy providerCmd then
      .error "BM_PROVIDER_CMD fehlt für lokalen/headless Provider."
    else .ok (.command (providerCmd.getD "") providerTimeoutSec)
  else if key == "claude-cli" || key == "claude-flow" then
    .ok (.claudeCLI (orDefault claudeCliBin "claude") mcpConfigPath cwd
      instructions)
  else .error ("Unbekannter Provider: " ++ name)

/-! ## Concrete fixtures used by witnesses and counterexamples -/

/-- Concrete worker settings for witnesses. -/
def st0 : WorkerSettings := ⟨"sp", 20⟩

/-- Concrete agent spec for witnesses. -/
def spec0 : AgentSpecM := ⟨"a1", none, none⟩

/-- A provider whose `generate` raises on every call, with cause `"boom"`. -/
def genErr : GenOracle := fun _ _ _ _ => .error "boom"

/-- An assistant event line whose message content is the plain string `s`. -/
def assistantStrMsg (s : String) : JVal :=
  .jobj [("type", .jstr "assistant"),
    ("message", .jobj [("role", .jstr "assistant"), ("content", .jstr s)])]

/-! ## Helper lemmas -/

/-- Scanning a well-paired prefix leaves the scanner in its base state. -/
theorem altOk_append (X : List Message) :
    ∀ (l : List Message) (b : Bool),
      altOk b l = true → altOk b (l ++ X) = altOk false X := by
  intro l
  induction l with
  | nil =>
      intro b hb
      cases b with
      | false => simp
      | true => simp [altOk] at hb
  | cons m rest ih =>
      intro b hb
      cases b with
      | false =>
          by_cases hu : m.role == "user"
          · simp only [altOk, hu, if_true] at hb
            simp only [List.cons_append, altOk, hu, if_true]
            exact ih true hb
          · by_cases ha : m.role == "assistant"
            · simp [altOk, hu, ha] at hb
            · simp only [altOk, hu, ha, if_false] at hb
              simp only [List.cons_append, altOk, hu, ha, if_false]
              exact ih false hb
      | true =>
          simp only [altOk, Bool.and_eq_true] at hb
          simp only [List.cons_append, altOk, hb.1, Bool.true_and]
          exact ih false hb.2

/-- `processItem` appends exactly a `user`/`assistant` pair. -/
theorem processItem_eq (st : WorkerSettings) (spec : AgentSpecM)
    (gen : GenOracle) (k : Nat) (store : List Message) (item : String) :
    processItem st spec gen k store item =
      store ++ [⟨"user", item⟩,
        ⟨"assistant",
          match gen k st.systemPrompt
              (buildContext st (store ++ [⟨"user", item⟩])) spec.model with
          | .ok r => r
          | .error e => errorReply e⟩] := by
  simp [processItem]

/-- The worker loop preserves the pairing discipline. -/
theorem runItems_altOk (st : WorkerSettings) (spec : AgentSpecM)
    (gen : GenOracle) :
    ∀ (items : List String) (k : Nat) (store : List Message),
      altOk false store = true →
      altOk false (runItems st spec gen k store items) = true := by
  intro items
  induction items with
  | nil => intro k store h; simpa [runItems] using h
  | cons item rest ih =>
      intro k store h
      simp only [runItems]
      apply ih
      rw [processItem_eq, altOk_append _ store false h]
      simp [altOk]

/-- The worker loop appends exactly the drained items as `user` contents. -/
theorem runItems_userContents (st : WorkerSettings) (spec : AgentSpecM)
    (gen : GenOracle) :
    ∀ (items : List String) (k : Nat) (store : List Message),
      userContents (runItems st spec gen k store items) =
        userContents store ++ items := by
  intro items
  induction items with
  | nil => intro k store; simp [runItems]
  | cons item rest ih =>
      intro k store
      simp only [runItems]
      rw [ih, processItem_eq]
      simp [userContents, List.filter_append]

/-- The drain loop leaves the queue empty. -/
theorem flushQueue_eq_nil : ∀ q : List String, flushQueue q = [] := by
  intro q
  induction q with
  | nil => rfl
  | cons x rest ih => simpa [flushQueue] using ih

/-- The list branch of `_content_to_text` concatenates the extracted block
texts, for any list (the empty list is falsy and yields `""` = the empty
join). -/
theorem contentToText_jlist (l : List JVal) :
    contentToText (.jlist l) = String.join (l.filterMap blockText) := by
  cases l with
  | nil => rfl
  | cons x rest => simp [contentToText, pyTruthy]

/-- `blockText` recovers the text of a structured text block. -/
theorem blockText_textBlock (t : String) :
    blockText (textBlock t) = some t := rfl

/-- The reversed-scan helper skips any prefix without a `user` row. -/
theorem firstUserContent_append (uc : String) (r : List Message) :
    ∀ l : List Message, (∀ x ∈ l, x.role ≠ "user") →
      firstUserContent (l ++ ⟨"user", uc⟩ :: r) = uc := by
  intro l
  induction l with
  | nil => intro _; simp [firstUserContent]
  | cons m rest ih =>
      intro h
      have hm : (m.role == "user") = false := by
        simpa using h m (by simp)
      simp only [List.cons_append, firstUserContent, hm, Bool.false_eq_true,
        if_false]
      exact ih fun x hx => h x (by simp [hx])

/-- The most recent `user` entry's content, when the suffix after it has no
`user` entry. -/
theorem lastUserContent_eq (pre post : List Message) (uc : String)
    (h : ∀ x ∈ post, x.role ≠ "user") :
    lastUserContent (pre ++ ⟨"user", uc⟩ :: post) = uc := by
  unfold lastUserContent
  rw [List.reverse_append, List.reverse_cons, List.append_assoc]
  exact firstUserContent_append uc _ post.reverse
    (fun x hx => h x (List.mem_reverse.mp hx))

/-- Every worker spawned from a manager whose registry already shares the
manager's provider object also holds that object. -/
theorem spawnAll_providerRef :
    ∀ (names : List String) (m : ManagerState),
      (∀ w ∈ m.workers, w.providerRef = m.providerRef) →
      ∀ w ∈ (spawnAll m names).workers, w.providerRef = m.providerRef := by
  intro names
  induction names with
  | nil => intro m hm; simpa [spawnAll] using hm
  | cons n rest ih =>
      intro m hm
      simp only [spawnAll]
      intro w hw
      have h2 : ∀ w2 ∈ (spawnAgent m n).1.workers,
          w2.providerRef = (spawnAgent m n).1.providerRef := by
        intro w2 hw2
        simp only [spawnAgent, List.mem_append, List.mem_singleton] at hw2
        rcases hw2 with h | h
        · simpa [spawnAgent] using hm w2 h
        · simp [h, spawnAgent]
      have := ih (spawnAgent m n).1 h2 w hw
      simpa [spawnAgent] using this

/-- First component of the content construction shared by both streaming
`generate` versions. -/
theorem buildSendContent_fst (ins : Option String) (fs : Bool)
    (msgs : List Message) :
    (buildSendContent ins fs msgs).1 =
      if instrTruthy ins && !fs then
        (ins.getD "") ++ "\n\n---\n\nUser message:\n" ++ lastUserContent msgs
      else lastUserContent msgs := by
  by_cases hc : (instrTruthy ins && !fs) = true
  · simp [buildSendContent, hc]
  · simp [buildSendContent, hc]

/-- `outboundFor` in explicit form: the line's fields and the new flag come
from `buildSendContent` and the session id alone. -/
theorem outboundFor_eq (ins : Option String) (fs : Bool) (sid sp : String)
    (msgs : List Message) (model : Option String) (tp : Int) :
    outboundFor ins fs sid sp msgs model tp =
      ({ typ := "user", role := "user",
         content := (buildSendContent ins fs msgs).1, sessionId := sid },
       (buildSendContent ins fs msgs).2) := by
  unfold outboundFor
  cases hb : buildSendContent ins fs msgs with
  | mk c f2 => simp [hb]

/-- `buildSendContent` reads the message list only through
`lastUserContent`. -/
theorem buildSendContent_congr (ins : Option String) (fs : Bool)
    (m1 m2 : List Message) (h : lastUserContent m1 = lastUserContent m2) :
    buildSendContent ins fs m1 = buildSendContent ins fs m2 := by
  simp [buildSendContent, h]

/-! ## Claims -/

/-- C1 (amended): in every worker run, each stored `user` turn is
immediately followed by exactly one `assistant` turn (`altOk` discipline),
and when the bound provider's `generate` raises with cause `e`, the loop
body appends an assistant turn whose text is the inline error form
`"[Fehler bei LLM-Abfrage: <cause>]"` instead of propagating the
exception. -/
theorem agent_worker_user_followed_by_assistant (st : WorkerSettings)
    (spec : AgentSpecM) (gen : GenOracle) (items : List String) :
    altOk false (runWorker st spec gen items) = true ∧
    ∀ (store : List Message) (item : String) (k : Nat) (e : String),
      gen k st.systemPrompt (buildContext st (store ++ [⟨"user", item⟩]))
          spec.model = .error e →
      processItem st spec gen k store item =
        store ++ [⟨"user", item⟩, ⟨"assistant", errorReply e⟩] := by
  constructor
  · exact runItems_altOk st spec gen items 0 _ rfl
  · intro store item k e h
    rw [processItem_eq, h]

/-- C1 witness: a worker whose provider raises `"boom"` on the first
message stores the user turn and then the German inline error turn. -/
theorem agent_worker_user_followed_by_assistant_witness :
    processItem st0 spec0 genErr 0 [⟨"system", announceText spec0⟩] "Hi" =
      [⟨"system", announceText spec0⟩, ⟨"user", "Hi"⟩,
       ⟨"assistant", errorReply "boom"⟩] := by
  have h := (agent_worker_user_followed_by_assistant st0 spec0 genErr
    ["Hi"]).2 [⟨"system", announceText spec0⟩] "Hi" 0 "boom" rfl
  simpa using h

/-- C1 counterexample: on a provider exception with cause `"boom"` the
stored assistant text is `"[Fehler bei LLM-Abfrage: boom]"`, not the
claimed `"[error: boom]"`. -/
theorem agent_worker_error_text_not_error_form :
    runWorker st0 spec0 genErr ["Hi"] =
      [⟨"system", announceText spec0⟩, ⟨"user", "Hi"⟩,
       ⟨"assistant", "[Fehler bei LLM-Abfrage: boom]"⟩] ∧
    "[Fehler bei LLM-Abfrage: boom]" ≠ "[error: boom]" :=
  ⟨rfl, by decide⟩

/-- C2: the `user` turns stored by a worker are exactly the mailbox items
in acceptance order: the single thread drains the FIFO mailbox one item at
a time, appending each user text (and its reply) before dequeuing the
next. -/
theorem worker_stores_user_turns_in_mailbox_order (st : WorkerSettings)
    (spec : AgentSpecM) (gen : GenOracle) (items : List String) :
    userContents (runWorker st spec gen items) = items := by
  have h0 : userContents [(⟨"system", announceText spec⟩ : Message)] = [] :=
    rfl
  unfold runWorker
  rw [runItems_userContents, h0, List.nil_append]

/-- C3 (code bug): with `max_context_messages = 2` and the stored
conversation `[system, user "a", assistant "b", user "c"]`,
`Storage.get_messages` returns the OLDEST two rows (`ORDER BY id ASC LIMIT
2`), not the two most recent as the spec's window demands, and the worker's
context therefore omits the just-appended user turn `"c"` entirely. -/
theorem get_messages_returns_oldest_window :
    getMessages [⟨"system", "s"⟩, ⟨"user", "a"⟩, ⟨"assistant", "b"⟩,
        ⟨"user", "c"⟩] (some 2) = [⟨"system", "s"⟩, ⟨"user", "a"⟩] ∧
    specRecentWindow [⟨"system", "s"⟩, ⟨"user", "a"⟩, ⟨"assistant", "b"⟩,
        ⟨"user", "c"⟩] 2 = [⟨"assistant", "b"⟩, ⟨"user", "c"⟩] ∧
    getMessages [⟨"system", "s"⟩, ⟨"user", "a"⟩, ⟨"assistant", "b"⟩,
        ⟨"user", "c"⟩] (some 2) ≠
      specRecentWindow [⟨"system", "s"⟩, ⟨"user", "a"⟩, ⟨"assistant", "b"⟩,
        ⟨"user", "c"⟩] 2 ∧
    buildContext ⟨"sp", 2⟩ [⟨"system", "s"⟩, ⟨"user", "a"⟩,
        ⟨"assistant", "b"⟩, ⟨"user", "c"⟩] = [⟨"user", "a"⟩] :=
  ⟨rfl, rfl, by decide, rfl⟩

/-- C4 (amended): every worker spawned by one `AgentManager` holds the very
provider object the manager was constructed with — one shared instance, not
a fresh instance per agent. -/
theorem manager_spawn_single_provider_instance (pr : Nat)
    (names : List String) :
    ∀ w ∈ (spawnAll (freshManager pr) names).workers, w.providerRef = pr := by
  intro w hw
  exact spawnAll_providerRef names (freshManager pr) (by simp [freshManager])
    w hw

/-- C4 witness: the first of two spawned workers holds provider object
`7`, the manager's own. -/
theorem manager_spawn_single_provider_instance_witness :
    (⟨1, "a", 7⟩ : WorkerRec) ∈
      (spawnAll (freshManager 7) ["a", "b"]).workers ∧
    (⟨1, "a", 7⟩ : WorkerRec).providerRef = 7 :=
  ⟨by decide,
   manager_spawn_single_provider_instance 7 ["a", "b"] ⟨1, "a", 7⟩
     (by decide)⟩

/-- C4 counterexample: two distinct agents spawned by one manager (ids 1
and 2) hold the same provider object (ref 0), refuting the claimed
distinctness. -/
theorem manager_spawn_shares_one_provider :
    ((spawnAll (freshManager 0) ["a", "b"]).workers.map
      (fun w => w.agentId)) = [1, 2] ∧
    ((spawnAll (freshManager 0) ["a", "b"]).workers.map
      (fun w => w.providerRef)) = [0, 0] :=
  ⟨rfl, rfl⟩

/-- C5 (amended): in the archive streaming provider, the drain of the
internal text queue before the write makes the reply independent of
whatever stale entries earlier calls left there; only events arriving
after the write reach the reply. -/
theorem archive_generate_ignores_stale_queue (st : StreamState)
    (q1 q2 : List String) (arrivals : List (Nat × String)) :
    archiveGenerate { st with queue := q1 } arrivals =
      archiveGenerate { st with queue := q2 } arrivals := by
  simp [archiveGenerate, flushQueue_eq_nil]

/-- C5 counterexample: the current streaming provider performs no drain —
an assistant line left unread in the child's stdout from before this
call's write (`"stale"`) ends up concatenated into the reply. -/
theorem current_generate_includes_prior_output :
    currentGenerate [some (assistantStrMsg "stale")]
        [(3000, some (assistantStrMsg "fresh"))] = "stalefresh" ∧
    "stalefresh" ≠ "fresh" :=
  ⟨rfl, by decide⟩

/-- C6 (amended): the archive streaming provider returns the non-empty
timeout sentinel `"[claude-cli timeout]"` when no chunk arrives before the
deadline, no stderr diagnostic was captured and the child still runs. -/
theorem archive_generate_timeout_sentinel (st : StreamState)
    (arrivals : List (Nat × String))
    (hlate : ∀ p ∈ arrivals, st.responseTimeoutMs ≤ p.1)
    (herr : st.lastError = none) (hrun : st.exitCode = none) :
    archiveGenerate st arrivals = "[claude-cli timeout]" ∧
    "[claude-cli timeout]" ≠ "" := by
  constructor
  · unfold archiveGenerate
    rw [flushQueue_eq_nil]
    cases arrivals with
    | nil => simp [collectChunks, herr, hrun]
    | cons p rest =>
        obtain ⟨t0, c0⟩ := p
        have h1 : ¬t0 < st.responseTimeoutMs :=
          Nat.not_lt.mpr (hlate (t0, c0) (by simp))
        simp [collectChunks, h1, herr, hrun]
  · decide

/-- C6 witness: a child that writes nothing before the 120 s deadline
while staying alive yields the timeout sentinel. -/
theorem archive_generate_timeout_sentinel_witness :
    archiveGenerate ⟨[], none, none, false, none, "s", 120000⟩
        [(120000, "late")] = "[claude-cli timeout]" ∧
    "[claude-cli timeout]" ≠ "" :=
  archive_generate_timeout_sentinel _ _ (by decide) rfl rfl

/-- C6 counterexample: the current streaming provider has no timeout
sentinel — a `generate` call whose child writes nothing before the
deadline returns the empty string. -/
theorem current_generate_timeout_returns_empty :
    currentGenerate [] [] = "" := rfl

/-- C7 (amended): when a `generate` call on the archive streaming provider
collects no chunks, the child has exited with code `c` and no stderr
diagnostic was captured, the result is the process-exited sentinel carrying
the exit code (which thereby preempts the timeout sentinel). -/
theorem archive_generate_exit_sentinel (st : StreamState)
    (arrivals : List (Nat × String)) (c : Int)
    (hlate : ∀ p ∈ arrivals, st.responseTimeoutMs ≤ p.1)
    (herr : st.lastError = none) (hexit : st.exitCode = some c) :
    archiveGenerate st arrivals =
      "[claude-cli exited " ++ toString c ++ "]" := by
  unfold archiveGenerate
  rw [flushQueue_eq_nil]
  cases arrivals with
  | nil => simp [collectChunks, herr, hexit]
  | cons p rest =>
      obtain ⟨t0, c0⟩ := p
      have h1 : ¬t0 < st.responseTimeoutMs :=
        Nat.not_lt.mpr (hlate (t0, c0) (by simp))
      simp [collectChunks, h1, herr, hexit]

/-- C7 witness: a child exited with code 1, nothing on the queue and no
stderr diagnostic yields `"[claude-cli exited 1]"`. -/
theorem archive_generate_exit_sentinel_witness :
    archiveGenerate ⟨[], none, some 1, false, none, "s", 120000⟩ [] =
      "[claude-cli exited 1]" :=
  (archive_generate_exit_sentinel ⟨[], none, some 1, false, none, "s",
    120000⟩ [] 1 (by decide) rfl rfl).trans (by decide)

/-- C7 counterexample: with a captured stderr diagnostic the result is the
stderr sentinel, not the process-exited sentinel — exit code 1 is not
surfaced, refuting the claim's unconditional "the result is a
process-exited sentinel containing the exit code". -/
theorem archive_stderr_overrides_exit_sentinel :
    archiveGenerate ⟨[], some "Segmentation fault", some 1, false, none,
        "s", 120000⟩ [] = "[claude-cli stderr] Segmentation fault" ∧
    "[claude-cli stderr] Segmentation fault" ≠ "[claude-cli exited 1]" :=
  ⟨rfl, by decide⟩

/-- C8: `_content_to_text` handles the three content shapes uniformly — a
plain string is returned as-is, a single `type:"text"` block yields its
`text` field, and an ordered list of such blocks yields the concatenation
of their `text` fields in list order. -/
theorem content_to_text_three_shapes :
    (∀ s, contentToText (.jstr s) = s) ∧
    (∀ t, contentToText (textBlock t) = t) ∧
    (∀ ts : List String,
      contentToText (.jlist (ts.map textBlock)) = String.join ts) := by
  refine ⟨?_, ?_, ?_⟩
  · intro s
    by_cases h : s = ""
    · subst h; rfl
    · simp [contentToText, pyTruthy, h]
  · intro t; rfl
  · intro ts
    rw [contentToText_jlist, List.filterMap_map]
    have hc : (blockText ∘ textBlock) = fun t => some t := by
      funext t; exact blockText_textBlock t
    rw [hc]
    simp

/-- C9 (amended): the factory fails fast (raises `ValueError`) for
`anthropic`/`claude` without an Anthropic key, `openai`/`oai` without an
OpenAI key, `gemini`/`google` without a Gemini key and
`cmd`/`local`/`claude-code`/`cursor` without a provider command, and
succeeds when the required configuration is present; the
`claude-cli`/`claude-flow` branch requires nothing — it defaults the
binary to `"claude"` and never raises, deferring any missing-binary
failure to the first `generate` call. -/
theorem make_provider_required_config :
    ((makeProvider "anthropic" none (some "ok") (some "ok") none (some "c")
        90 (some "b") none none none).isOk = false) ∧
    ((makeProvider "claude" none (some "ok") (some "ok") none (some "c")
        90 (some "b") none none none).isOk = false) ∧
    ((makeProvider "openai" (some "ok") none (some "ok") none (some "c")
        90 (some "b") none none none).isOk = false) ∧
    ((makeProvider "oai" (some "ok") none (some "ok") none (some "c")
        90 (some "b") none none none).isOk = false) ∧
    ((makeProvider "gemini" (some "ok") (some "ok") none none (some "c")
        90 (some "b") none none none).isOk = false) ∧
    ((makeProvider "google" (some "ok") (some "ok") none none (some "c")
        90 (some "b") none none none).isOk = false) ∧
    ((makeProvider "cmd" (some "ok") (some "ok") (some "ok") none none
        90 (some "b") none none none).isOk = false) ∧
    ((makeProvider "local" (some "ok") (some "ok") (some "ok") none none
        90 (some "b") none none none).isOk = false) ∧
    ((makeProvider "claude-code" (some "ok") (some "ok") (some "ok") none
        none 90 (some "b") none none none).isOk = false) ∧
    ((makeProvider "cursor" (some "ok") (some "ok") (some "ok") none none
        90 (some "b") none none none).isOk = false) ∧
    ((makeProvider "anthropic" (some "k") none none none none 90 none none
        none none).isOk = true) ∧
    ((makeProvider "cmd" none none none none (some "run") 90 none none none
        none).isOk = true) ∧
    (∀ a b c d e t f g h i,
      (makeProvider "claude-cli" a b c d e t f g h i).isOk = true) ∧
    (∀ a b c d e t f g h i,
      (makeProvider "claude-flow" a b c d e t f g h i).isOk = true) := by
  refine ⟨by decide, by decide, by decide, by decide, by decide, by decide,
    by decide, by decide, by decide, by decide, by decide, by decide,
    ?_, ?_⟩
  · intro a b c d e t f g h i; rfl
  · intro a b c d e t f g h i; rfl

/-- C9 counterexample: constructing the `claude-cli` (and `claude-flow`)
provider with every piece of configuration absent raises nothing — the
factory returns a provider with the default binary `"claude"`, deferring
any failure to call time, so these names do not fail fast as claimed. -/
theorem make_provider_claude_cli_no_fail_fast :
    makeProvider "claude-cli" none none none none none 90 none none none
        none = .ok (.claudeCLI "claude" none none none) ∧
    makeProvider "claude-flow" none none none none none 90 none none none
        none = .ok (.claudeCLI "claude" none none none) :=
  ⟨rfl, rfl⟩

/-- C10: the outbound JSON line's `content` is exactly the content of the
most recent `role:"user"` entry of the supplied messages (standing
instructions prepended only while the first-message flag is unset); the
`system_prompt`, `model` and `temperature` arguments have no effect on the
line, nor do entries other than the last `user` entry (in particular
appended assistant entries). -/
theorem outbound_line_depends_only_on_last_user :
    (∀ (ins : Option String) (fs : Bool) (sid sp : String)
        (model : Option String) (tp : Int) (pre post : List Message)
        (uc : String), (∀ x ∈ post, x.role ≠ "user") →
      (outboundFor ins fs sid sp (pre ++ ⟨"user", uc⟩ :: post) model
          tp).1.content =
        if instrTruthy ins && !fs then
          (ins.getD "") ++ "\n\n---\n\nUser message:\n" ++ uc
        else uc) ∧
    (∀ (ins : Option String) (fs : Bool) (sid sp sp2 : String)
        (msgs : List Message) (model model2 : Option String) (tp tp2 : Int),
      outboundFor ins fs sid sp msgs model tp =
        outboundFor ins fs sid sp2 msgs model2 tp2) ∧
    (∀ (ins : Option String) (fs : Bool) (sid sp : String)
        (m1 m2 : List Message) (model : Option String) (tp : Int),
      lastUserContent m1 = lastUserContent m2 →
      outboundFor ins fs sid sp m1 model tp =
        outboundFor ins fs sid sp m2 model tp) ∧
    (∀ (msgs : List Message) (a : String),
      lastUserContent (msgs ++ [⟨"assistant", a⟩]) =
        lastUserContent msgs) := by
  refine ⟨?_, ?_, ?_, ?_⟩
  · intro ins fs sid sp model tp pre post uc h
    rw [outboundFor_eq]
    show (buildSendContent ins fs _).1 = _
    rw [buildSendContent_fst, lastUserContent_eq pre post uc h]
  · intro ins fs sid sp sp2 msgs model model2 tp tp2
    rw [outboundFor_eq, outboundFor_eq]
  · intro ins fs sid sp m1 m2 model tp h
    rw [outboundFor_eq, outboundFor_eq,
      buildSendContent_congr ins fs m1 m2 h]
  · intro msgs a
    simp [lastUserContent, firstUserContent, List.reverse_append]

/-- C10 witness: with no standing instructions, the line's content for
`[user "frage", assistant "antwort"]` is exactly `"frage"`. -/
theorem outbound_line_depends_only_on_last_user_witness :
    (outboundFor none false "sid" "syspr"
        ([] ++ (⟨"user", "frage"⟩ : Message) :: [⟨"assistant", "antwort"⟩])
        none 0).1.content = "frage" :=
  (outbound_line_depends_only_on_last_user.1 none false "sid" "syspr" none 0
    [] [⟨"assistant", "antwort"⟩] "frage" (by decide)).trans (by decide)

end BotMaster
